import Mathlib

/-!
Shallow embedding of `app/api.py` (a FastAPI inference-serving facade) and
proofs about its behavior: artifact loading at startup, the response-envelope
decorator `construct_response`, the four read handlers, and the dot-path
filter loop of the performance handler.

Python values flowing through the handlers (JSON-like data) are embedded as
`PyVal`; Python dicts are association lists in insertion order; an operation
that raises a Python exception is embedded as `Option.none`.
-/

namespace MLOps

/-- A Python value as it appears in the data handled by `app/api.py`:
integers, strings, lists, and dicts with string keys (association list in
insertion order, keys unique by construction of Python dicts). -/
inductive PyVal where
  | vInt (n : Int)
  | vStr (s : String)
  | vList (xs : List PyVal)
  | dict (entries : List (String × PyVal))
deriving Repr

/-- Python `d[key]` / the lookup part of `d.get(key, default)` on a dict
embedded as an association list: the first entry with the given key. -/
def dictGet : List (String × PyVal) → String → Option PyVal
  | [], _ => none
  | (k, v) :: rest, key => if k = key then some v else dictGet rest key

/-- Whether a `PyVal` is a dict (only dicts have the `.get` method). -/
def isDict : PyVal → Bool
  | .dict _ => true
  | _ => false

/-- Python `str.split(".")` on a list of characters: splits at every dot,
keeping empty groups, and yields one (empty) group for the empty input. -/
def splitOnDotChars : List Char → List (List Char)
  | [] => [[]]
  | c :: rest =>
    match splitOnDotChars rest with
    | [] => [[c]]
    | g :: gs => if c = '.' then [] :: g :: gs else (c :: g) :: gs

/-- Python `s.split(".")` for a string, as used on `filter` in
`_performance` (`app/api.py` line 117). -/
def pySplitDot (s : String) : List String :=
  (splitOnDotChars s.data).map String.mk

/-- Python `s.strip()`: the string with leading and trailing whitespace
removed. Used only to state what the spec asserts about run-identifier
trimming; `app/api.py` itself never calls it. -/
def pyStrip (s : String) : String :=
  String.mk (((s.data.dropWhile Char.isWhitespace).reverse.dropWhile
    Char.isWhitespace).reverse)

/-- One iteration of the loop `performance = performance.get(key, {})`
(`app/api.py` lines 118-119): on a dict, the value at `key`, defaulting to
the empty dict when the key is absent; on any non-dict value, Python raises
`AttributeError` (no `.get` attribute), embedded as `none`. -/
def pyGetDefault (v : PyVal) (key : String) : Option PyVal :=
  match v with
  | .dict entries => some ((dictGet entries key).getD (.dict []))
  | _ => none

/-- The whole filter loop of `_performance` on an already-split path: folds
`pyGetDefault` over the segments, propagating a raised `AttributeError`. -/
def resolveSegs : PyVal → List String → Option PyVal
  | m, [] => some m
  | .dict entries, key :: rest =>
      resolveSegs ((dictGet entries key).getD (.dict [])) rest
  | _, _ :: _ => none

/-- The Nested-Key Filter of the spec: resolve a dot-separated path against
a value, exactly as the loop in `_performance` (`app/api.py` lines 117-119)
does after `filter.split(".")`. -/
def resolve (m : PyVal) (path : String) : Option PyVal :=
  resolveSegs m (pySplitDot path)

/-- The artifact bundle returned by `main.load_artifacts`. Modelled from the
spec: `tagifai/main.py` is not under src/; the spec says the bundle contains
at least `params` (a record of scalar values; `vars(artifacts["params"])` in
`app/api.py` views it as a plain mapping, embedded here directly as the
association list) and `performance` (a nested mapping of metric name to
value). -/
structure ArtifactBundle where
  params : List (String × PyVal)
  performance : PyVal
deriving Repr

/-- The startup hook `load_artifacts` (`app/api.py` lines 26-31): reads the
run identifier text and calls the loading service with it. `loader` stands
for the external `main.load_artifacts` (it may raise: `none`);
`runIdSourceText` is the full text read from `run_id.txt` by
`open(...).read()` - the code applies no `.strip()` to it. The returned
value is the new state of the module-global `artifacts`. -/
def load_artifacts {α : Type} (loader : String → Option α)
    (runIdSourceText : String) : Option α :=
  loader runIdSourceText

/-- The module-global `artifacts` before `load_artifacts` has run: the name
is not yet defined, so reading it raises `NameError`; embedded as `none`. -/
def artifactsGlobalBeforeStartup : Option ArtifactBundle := none

/-- The inbound request as `construct_response` uses it: `request.method`
and `request.url._url`. -/
structure Request where
  method : String
  url : String
deriving Repr

/-- The raw dict a handler returns: all handlers in `app/api.py` build a
dict with a `message` string, a `status-code` integer, and (optionally, as
far as `construct_response` is concerned) a `data` value. -/
structure RawResult where
  message : String
  statusCode : Int
  data : Option PyVal
deriving Repr

/-- The body of the `construct_response` decorator (`app/api.py` lines
34-56) after the wrapped handler produced `results`: builds the response
dict with `message`, `method`, `status-code`, `timestamp`, `url` in that
insertion order, then appends `data` exactly when `results` has a `data`
key. `ts` is the `datetime.now().isoformat()` string, passed in because it
is read from the clock. -/
def construct_response (request : Request) (ts : String)
    (results : RawResult) : List (String × PyVal) :=
  let response := [("message", PyVal.vStr results.message),
    ("method", PyVal.vStr request.method),
    ("status-code", PyVal.vInt results.statusCode),
    ("timestamp", PyVal.vStr ts),
    ("url", PyVal.vStr request.url)]
  match results.data with
  | some d => response ++ [("data", d)]
  | none => response

/-- The health-check handler `_index` (`app/api.py` lines 59-67):
`HTTPStatus.OK.phrase` is the string `OK` and `HTTPStatus.OK` the
integer 200. -/
def _index (request : Request) : RawResult :=
  { message := "OK", statusCode := 200, data := some (.dict []) }

/-- One item of the predict payload. Modelled from the spec:
`app/schemas.py` (PredictPayload) is not under src/; the spec says the
predict body is a list of objects each with a `text` field. -/
structure PredictItem where
  text : String
deriving Repr

/-- The predict payload: its `texts` field, as accessed by `_predict`. -/
structure PredictPayload where
  texts : List PredictItem
deriving Repr

/-- The predict handler `_predict` (`app/api.py` lines 70-81):
`predictService` stands for the external `predict.predict`. -/
def _predict (predictService : List String → ArtifactBundle → List PyVal)
    (request : Request) (artifacts : ArtifactBundle)
    (payload : PredictPayload) : RawResult :=
  let texts := payload.texts.map PredictItem.text
  let predictions := predictService texts artifacts
  { message := "OK", statusCode := 200,
    data := some (.dict [("predictions", .vList predictions)]) }

/-- The list-params handler `_params` (`app/api.py` lines 84-94):
`vars(artifacts["params"])` is the params mapping of the bundle. -/
def _params (request : Request) (artifacts : ArtifactBundle) : RawResult :=
  { message := "OK", statusCode := 200,
    data := some (.dict [("params", .dict artifacts.params)]) }

/-- The single-param handler `_param` (`app/api.py` lines 97-109):
`vars(artifacts["params"]).get(param, "")` defaults to the empty string for
an absent name. -/
def _param (request : Request) (artifacts : ArtifactBundle)
    (param : String) : RawResult :=
  { message := "OK", statusCode := 200,
    data := some (.dict [("params",
      .dict [(param, (dictGet artifacts.params param).getD (.vStr ""))])]) }

/-- The performance handler `_performance` (`app/api.py` lines 112-127).
Python `if filter:` is false exactly when `filter` is `None` or the empty
string, so those two cases return the whole mapping; otherwise the filter
loop runs over `filter.split(".")` and the data is keyed by the original
`filter` string. A raised `AttributeError` in the loop propagates
(`none`). -/
def _performance (request : Request) (artifacts : ArtifactBundle)
    (filter : Option String) : Option RawResult :=
  let performance := artifacts.performance
  match filter with
  | some f =>
    if f = "" then
      some { message := "OK"
             statusCode := 200
             data := some (.dict [("performance", performance)]) }
    else
      match resolveSegs performance (pySplitDot f) with
      | some v => some { message := "OK"
                         statusCode := 200
                         data := some (.dict [("performance",
                           .dict [(f, v)])]) }
      | none => none
  | none =>
    some { message := "OK"
           statusCode := 200
           data := some (.dict [("performance", performance)]) }

/-- The `/predict` route as served: reads the global `artifacts` (raising
`NameError` when unset), runs the handler, then wraps with
`construct_response`. The envelope is built only when the handler
returned. -/
def predictEndpoint (predictService : List String → ArtifactBundle → List PyVal)
    (request : Request) (ts : String) (store : Option ArtifactBundle)
    (payload : PredictPayload) : Option (List (String × PyVal)) :=
  (store.map fun a => _predict predictService request a payload).map
    (construct_response request ts)

/-- The `/params` route as served (global read, handler, envelope). -/
def paramsEndpoint (request : Request) (ts : String)
    (store : Option ArtifactBundle) : Option (List (String × PyVal)) :=
  (store.map fun a => _params request a).map (construct_response request ts)

/-- The `/params/[param]` route as served (global read, handler,
envelope). -/
def paramEndpoint (request : Request) (ts : String)
    (store : Option ArtifactBundle) (param : String) :
    Option (List (String × PyVal)) :=
  (store.map fun a => _param request a param).map
    (construct_response request ts)

/-- The `/performance` route as served (global read, handler, envelope). -/
def performanceEndpoint (request : Request) (ts : String)
    (store : Option ArtifactBundle) (filter : Option String) :
    Option (List (String × PyVal)) :=
  (store.bind fun a => _performance request a filter).map
    (construct_response request ts)

/-- A length-preserving probe prediction service, used to instantiate the
theorems at concrete inputs. -/
def echoService (texts : List String) (artifacts : ArtifactBundle) :
    List PyVal :=
  texts.map PyVal.vStr

/-- A concrete sample request. -/
def sampleRequest : Request :=
  { method := "POST", url := "http://localhost/predict" }

/-- A concrete sample artifact bundle. -/
def sampleBundle : ArtifactBundle :=
  { params := [("lower", PyVal.vInt 1)]
    performance := .dict [("overall", .dict [("precision", .vInt 9)])] }

/-- A concrete one-item predict payload. -/
def samplePayload : PredictPayload :=
  { texts := [{ text := "hello" }] }

/-- Once the filter loop reaches the empty dict, every further lookup
defaults to the empty dict again, so the loop ends there. -/
theorem resolveSegs_dict_nil (segs : List String) :
    resolveSegs (.dict []) segs = some (.dict []) := by
  induction segs with
  | nil => rfl
  | cons k rest ih => exact ih

/-- C1: the claim asserts that a path that partially matches and then hits a
scalar returns the empty dict; in the code the fold instead applies `.get`
to a non-dict value, which raises AttributeError (embedded as `none`), so at
the claimed input the result is not the empty dict. -/
theorem C1_scalar_hit_counterexample :
    resolve (.dict [("a", .dict [("b", .vInt 1)])]) "a.b.c" ≠
      some (.dict []) := by
  intro h
  rw [show resolve (.dict [("a", .dict [("b", .vInt 1)])]) "a.b.c" = none
    from rfl] at h
  exact Option.noConfusion h

/-- C1 (amended): resolving a dot path is the fold of get-with-empty-default
over the dot segments; a path that fully resolves to a scalar returns that
scalar, a segment absent at a dict level yields the empty dict for all of
the remainder, but a partial match that then hits a non-dict value raises
AttributeError (embedded as `none`) rather than returning the empty dict. -/
theorem C1_resolve_fold_amended :
    (resolve (.dict [("a", .dict [("b", .dict [("c", .vInt 5)])])]) "a.b.c"
        = some (.vInt 5))
    ∧ (resolve (.dict [("a", .dict [("b", .vInt 1)])]) "a.b.c" = none)
    ∧ (∀ (v : PyVal) (seg : String) (rest : List String), isDict v = false →
        resolveSegs v (seg :: rest) = none)
    ∧ (∀ (entries : List (String × PyVal)) (seg : String)
        (rest : List String), dictGet entries seg = none →
        resolveSegs (.dict entries) (seg :: rest) = some (.dict []))
    ∧ (∀ (entries : List (String × PyVal)), dictGet entries "x" = none →
        resolve (.dict entries) "x.y" = some (.dict [])) := by
  refine ⟨rfl, rfl, ?_, ?_, ?_⟩
  · intro v seg rest h
    cases v <;> simp_all [resolveSegs, isDict]
  · intro entries seg rest h
    simp [resolveSegs, h, resolveSegs_dict_nil]
  · intro entries h
    show resolveSegs (.dict entries) ("x" :: "y" :: []) = some (.dict [])
    simp [resolveSegs, h, resolveSegs_dict_nil]

/-- C1 witness: a dict without the key yields the empty dict for the whole
remaining path. -/
theorem C1_resolve_fold_amended_witness :
    resolve (.dict [("q", .vInt 7)]) "x.y" = some (.dict []) :=
  C1_resolve_fold_amended.2.2.2.2 [("q", PyVal.vInt 7)] rfl

/-- C2: the claim asserts the run identifier is trimmed of surrounding
whitespace before the loading service is invoked; with a probe loading
service that records the identifier it receives, a source text ending in a
newline is passed through unchanged, not equal to its stripped form. -/
theorem C2_no_strip_counterexample :
    load_artifacts (fun runId => some runId) "run1\n" ≠
      some (pyStrip "run1\n") := by
  decide

/-- C2 (amended): the run identifier text read from the source is passed to
the artifact-loading service verbatim: for every source text, the loading
service is invoked with exactly that text, with no whitespace trimming. -/
theorem C2_run_id_passed_verbatim (sourceText : String) :
    load_artifacts (fun runId => some runId) sourceText = some sourceText
    ∧ ∀ (loader : String → Option ArtifactBundle),
        load_artifacts loader sourceText = loader sourceText :=
  ⟨rfl, fun _ => rfl⟩

/-- C3: with a non-empty filter string whose resolution yields a value, the
performance handler returns data keyed by the literal original filter
string, mapped to the resolved value. -/
theorem C3_filter_literal_key (request : Request) (a : ArtifactBundle)
    (f : String) (v : PyVal) (hf : f ≠ "")
    (hv : resolve a.performance f = some v) :
    _performance request a (some f) =
      some { message := "OK"
             statusCode := 200
             data := some (.dict [("performance", .dict [(f, v)])]) } := by
  have hv2 : resolveSegs a.performance (pySplitDot f) = some v := hv
  simp [_performance, hf, hv2]

/-- C3 witness at a concrete bundle and the one-segment filter string x. -/
theorem C3_filter_literal_key_witness :
    _performance sampleRequest
      { params := [], performance := .dict [("x", .vInt 3)] } (some "x") =
      some { message := "OK"
             statusCode := 200
             data := some (.dict [("performance",
               .dict [("x", PyVal.vInt 3)])]) } :=
  C3_filter_literal_key sampleRequest
    { params := [], performance := .dict [("x", .vInt 3)] } "x"
    (PyVal.vInt 3) (by decide) rfl

/-- C4: with the filter absent (None) or equal to the empty string, the
performance handler returns the entire stored performance mapping,
unmodified, under the performance key. -/
theorem C4_no_filter_full_mapping (request : Request) (a : ArtifactBundle) :
    _performance request a none =
      some { message := "OK"
             statusCode := 200
             data := some (.dict [("performance", a.performance)]) }
    ∧ _performance request a (some "") =
      some { message := "OK"
             statusCode := 200
             data := some (.dict [("performance", a.performance)]) } :=
  ⟨rfl, rfl⟩

/-- C5: the single-param handler is total for every name: an absent name
(including the empty string, never a key of a loaded params record) maps to
the empty string value, and a present name maps to its stored value. -/
theorem C5_param_absent_empty_string (request : Request)
    (a : ArtifactBundle) (p : String) :
    (dictGet a.params p = none →
      _param request a p =
        { message := "OK"
          statusCode := 200
          data := some (.dict [("params", .dict [(p, .vStr "")])]) })
    ∧ ∀ (v : PyVal), dictGet a.params p = some v →
      _param request a p =
        { message := "OK"
          statusCode := 200
          data := some (.dict [("params", .dict [(p, v)])]) } := by
  constructor
  · intro h
    simp [_param, h]
  · intro v h
    simp [_param, h]

/-- C5 witness: the empty param name is absent from the sample params, and
the handler returns the empty string for it. -/
theorem C5_param_absent_empty_string_witness :
    _param sampleRequest sampleBundle "" =
      { message := "OK"
        statusCode := 200
        data := some (.dict [("params", .dict [("", PyVal.vStr "")])]) } :=
  (C5_param_absent_empty_string sampleRequest sampleBundle "").1 rfl

/-- C6: the envelope built by construct_response has exactly the keys
message, method, status-code, timestamp, url - plus data exactly when the
raw handler result has a data key; message and status-code are copied from
the result, method and url from the request, and data passes through
unchanged. -/
theorem C6_envelope_shape (request : Request) (ts : String)
    (results : RawResult) :
    ((construct_response request ts results).map Prod.fst =
      ["message", "method", "status-code", "timestamp", "url"] ++
        (match results.data with | some _ => ["data"] | none => []))
    ∧ dictGet (construct_response request ts results) "message" =
        some (.vStr results.message)
    ∧ dictGet (construct_response request ts results) "method" =
        some (.vStr request.method)
    ∧ dictGet (construct_response request ts results) "status-code" =
        some (.vInt results.statusCode)
    ∧ dictGet (construct_response request ts results) "timestamp" =
        some (.vStr ts)
    ∧ dictGet (construct_response request ts results) "url" =
        some (.vStr request.url)
    ∧ dictGet (construct_response request ts results) "data" =
        results.data := by
  cases h : results.data <;> simp [construct_response, dictGet, h]

/-- C7: the predict handler extracts the payload texts in order, passes
them with the stored bundle to the prediction service, and returns the
service's result list under the predictions key; when the service returns
one result per input, that list has exactly the length of the (non-empty)
input list. -/
theorem C7_predict_order_length
    (svc : List String → ArtifactBundle → List PyVal) (request : Request)
    (a : ArtifactBundle) (payload : PredictPayload)
    (hne : payload.texts ≠ [])
    (hsvc : ∀ (ts : List String) (b : ArtifactBundle),
      (svc ts b).length = ts.length) :
    ∃ rs, _predict svc request a payload =
        { message := "OK"
          statusCode := 200
          data := some (.dict [("predictions", .vList rs)]) }
      ∧ rs = svc (payload.texts.map PredictItem.text) a
      ∧ rs.length = payload.texts.length := by
  refine ⟨svc (payload.texts.map PredictItem.text) a, rfl, rfl, ?_⟩
  rw [hsvc]
  simp

/-- C7 witness: the echo service on a one-item payload. -/
theorem C7_predict_order_length_witness :
    ∃ rs, _predict echoService sampleRequest sampleBundle samplePayload =
        { message := "OK"
          statusCode := 200
          data := some (.dict [("predictions", .vList rs)]) }
      ∧ rs = echoService (samplePayload.texts.map PredictItem.text)
          sampleBundle
      ∧ rs.length = samplePayload.texts.length :=
  C7_predict_order_length echoService sampleRequest sampleBundle
    samplePayload (fun h => List.noConfusion h)
    (fun ts _ => List.length_map ts PyVal.vStr)

/-- C8: each artifact-dependent route (predict, list params, single param,
performance), invoked before the store has been populated, raises the
uninitialized-access NameError and returns no envelope at all. -/
theorem C8_uninitialized_fails
    (svc : List String → ArtifactBundle → List PyVal) (request : Request)
    (ts : String) (payload : PredictPayload) (p : String)
    (filt : Option String) :
    predictEndpoint svc request ts artifactsGlobalBeforeStartup payload =
        none
    ∧ paramsEndpoint request ts artifactsGlobalBeforeStartup = none
    ∧ paramEndpoint request ts artifactsGlobalBeforeStartup p = none
    ∧ performanceEndpoint request ts artifactsGlobalBeforeStartup filt =
        none :=
  ⟨rfl, rfl, rfl, rfl⟩

/-- C9: when the loading service succeeds on a run identifier, the store
afterwards holds exactly the returned bundle, and the reading endpoints
observe its params and performance fields verbatim. -/
theorem C9_store_verbatim (loader : String → Option ArtifactBundle)
    (src : String) (b : ArtifactBundle) (h : loader src = some b) :
    load_artifacts loader src = some b
    ∧ (∀ (request : Request) (ts : String),
        paramsEndpoint request ts (load_artifacts loader src) =
          some (construct_response request ts
            { message := "OK"
              statusCode := 200
              data := some (.dict [("params", .dict b.params)]) }))
    ∧ (∀ (request : Request) (ts : String),
        performanceEndpoint request ts (load_artifacts loader src) none =
          some (construct_response request ts
            { message := "OK"
              statusCode := 200
              data := some (.dict [("performance", b.performance)]) })) := by
  refine ⟨h, ?_, ?_⟩
  · intro request ts
    simp [paramsEndpoint, load_artifacts, h, _params]
  · intro request ts
    simp [performanceEndpoint, load_artifacts, h, _performance]

/-- C9 witness: a loading service that returns the sample bundle. -/
theorem C9_store_verbatim_witness :
    load_artifacts (fun _ => some sampleBundle) "run1" = some sampleBundle
    ∧ (∀ (request : Request) (ts : String),
        paramsEndpoint request ts
            (load_artifacts (fun _ => some sampleBundle) "run1") =
          some (construct_response request ts
            { message := "OK"
              statusCode := 200
              data := some (.dict [("params",
                .dict sampleBundle.params)]) }))
    ∧ (∀ (request : Request) (ts : String),
        performanceEndpoint request ts
            (load_artifacts (fun _ => some sampleBundle) "run1") none =
          some (construct_response request ts
            { message := "OK"
              statusCode := 200
              data := some (.dict [("performance",
                sampleBundle.performance)]) })) :=
  C9_store_verbatim (fun _ => some sampleBundle) "run1" sampleBundle rfl

/-- C10: all four handlers carry message OK and status-code 200 on every
successful return, not only the health check. -/
theorem C10_uniform_ok :
    (∀ (request : Request), (_index request).message = "OK"
      ∧ (_index request).statusCode = 200)
    ∧ (∀ (svc : List String → ArtifactBundle → List PyVal)
        (request : Request) (a : ArtifactBundle) (payload : PredictPayload),
        (_predict svc request a payload).message = "OK"
        ∧ (_predict svc request a payload).statusCode = 200)
    ∧ (∀ (request : Request) (a : ArtifactBundle),
        (_params request a).message = "OK"
        ∧ (_params request a).statusCode = 200)
    ∧ (∀ (request : Request) (a : ArtifactBundle) (p : String),
        (_param request a p).message = "OK"
        ∧ (_param request a p).statusCode = 200)
    ∧ (∀ (request : Request) (a : ArtifactBundle) (filt : Option String)
        (r : RawResult), _performance request a filt = some r →
        r.message = "OK" ∧ r.statusCode = 200) := by
  refine ⟨fun _ => ⟨rfl, rfl⟩, fun _ _ _ _ => ⟨rfl, rfl⟩,
    fun _ _ => ⟨rfl, rfl⟩, fun _ _ _ => ⟨rfl, rfl⟩, ?_⟩
  intro request a filt r h
  cases filt with
  | none =>
    injection h with h2
    subst h2
    exact ⟨rfl, rfl⟩
  | some f =>
    by_cases hf : f = ""
    · subst hf
      injection h with h2
      subst h2
      exact ⟨rfl, rfl⟩
    · cases heq : resolveSegs a.performance (pySplitDot f) with
      | none => simp [_performance, hf, heq] at h
      | some v =>
        simp [_performance, hf, heq] at h
        subst h
        exact ⟨rfl, rfl⟩

/-- C10 witness: the performance handler with no filter on the sample
bundle succeeds with message OK and status-code 200. -/
theorem C10_uniform_ok_witness :
    ({ message := "OK"
       statusCode := 200
       data := some (.dict [("performance", sampleBundle.performance)]) }
      : RawResult).message = "OK"
    ∧ ({ message := "OK"
         statusCode := 200
         data := some (.dict [("performance", sampleBundle.performance)]) }
        : RawResult).statusCode = 200 :=
  C10_uniform_ok.2.2.2.2 sampleRequest sampleBundle none
    { message := "OK"
      statusCode := 200
      data := some (.dict [("performance", sampleBundle.performance)]) }
    rfl

end MLOps
